import Mathlib

set_option maxRecDepth 100000

deriving instance DecidableEq for Except

/-!
Verification of the RWS audio-container layout and decoder described in the
repository. The C source declares packed record layouts (pragma pack(1));
each struct is embedded as a list of (field name, byte width) pairs in the
declared order, so field offsets are the sums of the widths of the preceding
fields, exactly as a packed C struct lays them out. All multi-byte fields are
little-endian. The decoder itself is not part of the source tree; it is
modelled from the specification where needed, and every such definition is
marked in its doc comment.
-/

/-- A byte from a buffer: out-of-range reads give 0, and values are reduced
mod 256 so every read is a genuine byte. -/
def readU8 (b : List Nat) (i : Nat) : Nat := b.getD i 0 % 256

/-- Little-endian 16-bit read. -/
def readLE16 (b : List Nat) (i : Nat) : Nat :=
  readU8 b i + 256 * readU8 b (i + 1)

/-- Little-endian 32-bit read. -/
def readLE32 (b : List Nat) (i : Nat) : Nat :=
  readU8 b i + 256 * readU8 b (i + 1) + 65536 * readU8 b (i + 2)
    + 16777216 * readU8 b (i + 3)

/-- Interpret a 16-bit unsigned value as a signed (two-complement) integer,
as the C type int16_t does. -/
def toSigned16 (v : Nat) : Int :=
  if v < 32768 then (v : Int) else (v : Int) - 65536

/-- Byte offset of a named field inside a packed struct given as a list of
(name, width) pairs: the sum of the widths preceding the first match. -/
def fieldOffset : List (String × Nat) → String → Nat
  | [], _ => 0
  | f :: rest, name => if f.1 = name then 0 else f.2 + fieldOffset rest name

/-- Byte width of a named field inside a packed struct (0 when absent). -/
def fieldWidth : List (String × Nat) → String → Nat
  | [], _ => 0
  | f :: rest, name => if f.1 = name then f.2 else fieldWidth rest name

/-- Total byte size of a packed struct given as (name, width) pairs. -/
def structBytes (fs : List (String × Nat)) : Nat :=
  (fs.map Prod.snd).sum

/-- Packed layout of RWS_FileHeader, transcribed from the source. -/
def fileHeaderFields : List (String × Nat) :=
  [("id", 4), ("file_size", 4), ("version", 4)]

/-- Packed layout of RWS_ChunkHeader, transcribed from the source. -/
def chunkHeaderFields : List (String × Nat) :=
  [("id", 4), ("size", 4), ("version", 4)]

/-- Packed layout of RWS_HeaderBase (the audio-header fixed preamble),
transcribed from the source. -/
def headerBaseFields : List (String × Nat) :=
  [("header_size_actual", 4), ("section_size_1", 4), ("section_size_2", 4),
   ("section_size_3", 4), ("config_1", 4), ("config_2", 4), ("zero_1", 4),
   ("total_segments", 4), ("config_3", 4), ("total_layers", 4),
   ("config_4", 4), ("unknown_30", 4), ("block_layers_size", 4),
   ("data_offset", 4), ("zero_2", 4), ("file_uuid", 16)]

/-- Packed layout of RWS_SegmentInfo, transcribed from the source. -/
def segmentInfoFields : List (String × Nat) :=
  [("unk_00", 4), ("unk_04", 4), ("unk_08", 4), ("unk_0C", 4), ("unk_10", 4),
   ("unk_14", 4), ("layers_size", 4), ("data_offset", 4)]

/-- Packed layout of RWS_LayerInfo, transcribed from the source. -/
def layerInfoFields : List (String × Nat) :=
  [("unk_00", 4), ("unk_04", 4), ("zero_08", 4), ("frame_hint", 4),
   ("block_size_pad", 4), ("unk_14", 4), ("interleave", 2), ("frame_size", 2),
   ("unk_1C", 4), ("block_size", 4), ("layer_start", 4)]

/-- Packed layout of RWS_LayerConfig, transcribed from the source. -/
def layerConfigFields : List (String × Nat) :=
  [("sample_rate", 4), ("unk_04", 4), ("approx_size", 4),
   ("bits_per_sample", 2), ("channels", 1), ("unk_0F", 1), ("unk_10", 4),
   ("unk_14", 4), ("unk_18", 4), ("codec_uuid_first", 4),
   ("codec_uuid_rest", 12)]

/-- Packed layout of RWS_DSPInfo, transcribed from the source
(reserved is 0x14 = 20 bytes, coefs and hist are 16 int16_t each). -/
def dspInfoFields : List (String × Nat) :=
  [("approx_samples", 4), ("unk_04", 4), ("reserved", 20), ("coefs", 32),
   ("hist", 32)]

/-- The top-level container chunk id, from the source comment on
RWS_FileHeader. -/
def containerChunkId : Nat := 0x0000080D

/-- The audio-header chunk id, from the source comment on RWS_HeaderBase. -/
def audioHeaderChunkId : Nat := 0x0000080E

/-- The data chunk id, from the source comment on RWS_DataChunk. -/
def dataChunkId : Nat := 0x0000080F

/-- RWS_HeaderBase, the audio-header fixed preamble. -/
structure RWS_HeaderBase where
  header_size_actual : Nat
  section_size_1 : Nat
  section_size_2 : Nat
  section_size_3 : Nat
  config_1 : Nat
  config_2 : Nat
  zero_1 : Nat
  total_segments : Nat
  config_3 : Nat
  total_layers : Nat
  config_4 : Nat
  unknown_30 : Nat
  block_layers_size : Nat
  data_offset : Nat
  zero_2 : Nat
  file_uuid : List Nat
deriving DecidableEq

/-- RWS_SegmentInfo, one fixed segment record. -/
structure RWS_SegmentInfo where
  unk_00 : Nat
  unk_04 : Nat
  unk_08 : Nat
  unk_0C : Nat
  unk_10 : Nat
  unk_14 : Nat
  layers_size : Nat
  data_offset : Nat
deriving DecidableEq

/-- RWS_LayerInfo, one layer geometry record. -/
structure RWS_LayerInfo where
  unk_00 : Nat
  unk_04 : Nat
  zero_08 : Nat
  frame_hint : Nat
  block_size_pad : Nat
  unk_14 : Nat
  interleave : Nat
  frame_size : Nat
  unk_1C : Nat
  block_size : Nat
  layer_start : Nat
deriving DecidableEq

/-- RWS_LayerConfig, one layer config record. -/
structure RWS_LayerConfig where
  sample_rate : Nat
  unk_04 : Nat
  approx_size : Nat
  bits_per_sample : Nat
  channels : Nat
  unk_0F : Nat
  unk_10 : Nat
  unk_14 : Nat
  unk_18 : Nat
  codec_uuid_first : Nat
  codec_uuid_rest : List Nat
deriving DecidableEq

/-- RWS_DSPInfo, the DSP extension record. -/
structure RWS_DSPInfo where
  approx_samples : Nat
  unk_04 : Nat
  reserved : List Nat
  coefs : List Int
  hist : List Int
deriving DecidableEq

/-- Parse an RWS_HeaderBase preamble from a byte buffer, little-endian at the
packed offsets. -/
def parseHeaderBase (p : List Nat) : Option RWS_HeaderBase :=
  if p.length < structBytes headerBaseFields then none else some {
    header_size_actual := readLE32 p (fieldOffset headerBaseFields "header_size_actual"),
    section_size_1 := readLE32 p (fieldOffset headerBaseFields "section_size_1"),
    section_size_2 := readLE32 p (fieldOffset headerBaseFields "section_size_2"),
    section_size_3 := readLE32 p (fieldOffset headerBaseFields "section_size_3"),
    config_1 := readLE32 p (fieldOffset headerBaseFields "config_1"),
    config_2 := readLE32 p (fieldOffset headerBaseFields "config_2"),
    zero_1 := readLE32 p (fieldOffset headerBaseFields "zero_1"),
    total_segments := readLE32 p (fieldOffset headerBaseFields "total_segments"),
    config_3 := readLE32 p (fieldOffset headerBaseFields "config_3"),
    total_layers := readLE32 p (fieldOffset headerBaseFields "total_layers"),
    config_4 := readLE32 p (fieldOffset headerBaseFields "config_4"),
    unknown_30 := readLE32 p (fieldOffset headerBaseFields "unknown_30"),
    block_layers_size := readLE32 p (fieldOffset headerBaseFields "block_layers_size"),
    data_offset := readLE32 p (fieldOffset headerBaseFields "data_offset"),
    zero_2 := readLE32 p (fieldOffset headerBaseFields "zero_2"),
    file_uuid := (p.drop (fieldOffset headerBaseFields "file_uuid")).take 16 }

/-- Parse an RWS_SegmentInfo record. -/
def parseSegmentInfo (p : List Nat) : Option RWS_SegmentInfo :=
  if p.length < structBytes segmentInfoFields then none else some {
    unk_00 := readLE32 p (fieldOffset segmentInfoFields "unk_00"),
    unk_04 := readLE32 p (fieldOffset segmentInfoFields "unk_04"),
    unk_08 := readLE32 p (fieldOffset segmentInfoFields "unk_08"),
    unk_0C := readLE32 p (fieldOffset segmentInfoFields "unk_0C"),
    unk_10 := readLE32 p (fieldOffset segmentInfoFields "unk_10"),
    unk_14 := readLE32 p (fieldOffset segmentInfoFields "unk_14"),
    layers_size := readLE32 p (fieldOffset segmentInfoFields "layers_size"),
    data_offset := readLE32 p (fieldOffset segmentInfoFields "data_offset") }

/-- Parse an RWS_LayerInfo record (interleave and frame_size are the two
16-bit fields). -/
def parseLayerInfo (p : List Nat) : Option RWS_LayerInfo :=
  if p.length < structBytes layerInfoFields then none else some {
    unk_00 := readLE32 p (fieldOffset layerInfoFields "unk_00"),
    unk_04 := readLE32 p (fieldOffset layerInfoFields "unk_04"),
    zero_08 := readLE32 p (fieldOffset layerInfoFields "zero_08"),
    frame_hint := readLE32 p (fieldOffset layerInfoFields "frame_hint"),
    block_size_pad := readLE32 p (fieldOffset layerInfoFields "block_size_pad"),
    unk_14 := readLE32 p (fieldOffset layerInfoFields "unk_14"),
    interleave := readLE16 p (fieldOffset layerInfoFields "interleave"),
    frame_size := readLE16 p (fieldOffset layerInfoFields "frame_size"),
    unk_1C := readLE32 p (fieldOffset layerInfoFields "unk_1C"),
    block_size := readLE32 p (fieldOffset layerInfoFields "block_size"),
    layer_start := readLE32 p (fieldOffset layerInfoFields "layer_start") }

/-- Parse an RWS_LayerConfig record (bits_per_sample is 16-bit, channels and
unk_0F are single bytes). -/
def parseLayerConfig (p : List Nat) : Option RWS_LayerConfig :=
  if p.length < structBytes layerConfigFields then none else some {
    sample_rate := readLE32 p (fieldOffset layerConfigFields "sample_rate"),
    unk_04 := readLE32 p (fieldOffset layerConfigFields "unk_04"),
    approx_size := readLE32 p (fieldOffset layerConfigFields "approx_size"),
    bits_per_sample := readLE16 p (fieldOffset layerConfigFields "bits_per_sample"),
    channels := readU8 p (fieldOffset layerConfigFields "channels"),
    unk_0F := readU8 p (fieldOffset layerConfigFields "unk_0F"),
    unk_10 := readLE32 p (fieldOffset layerConfigFields "unk_10"),
    unk_14 := readLE32 p (fieldOffset layerConfigFields "unk_14"),
    unk_18 := readLE32 p (fieldOffset layerConfigFields "unk_18"),
    codec_uuid_first := readLE32 p (fieldOffset layerConfigFields "codec_uuid_first"),
    codec_uuid_rest := (p.drop (fieldOffset layerConfigFields "codec_uuid_rest")).take 12 }

/-- Parse an RWS_DSPInfo record: 16 signed 16-bit coefficients then 16 signed
16-bit history values. -/
def parseDSPInfo (p : List Nat) : Option RWS_DSPInfo :=
  if p.length < structBytes dspInfoFields then none else some {
    approx_samples := readLE32 p (fieldOffset dspInfoFields "approx_samples"),
    unk_04 := readLE32 p (fieldOffset dspInfoFields "unk_04"),
    reserved := (p.drop (fieldOffset dspInfoFields "reserved")).take 20,
    coefs := (List.range 16).map
      (fun k => toSigned16 (readLE16 p (fieldOffset dspInfoFields "coefs" + 2 * k))),
    hist := (List.range 16).map
      (fun k => toSigned16 (readLE16 p (fieldOffset dspInfoFields "hist" + 2 * k))) }

/-- Decode errors. Modelled from the spec: the error taxonomy of the decoder,
which is not part of the source tree (the source declares only the record
layouts). UnknownCodec is non-fatal per the spec and is never returned by
decode. -/
inductive RWSError where
  | BadMagic
  | SizeMismatch
  | TruncatedStream
  | BadNameEncoding
  | GeometryOverflow
  | UnexpectedChunk
deriving DecidableEq

/-- Modelled from the spec: the DSP codec UUID that selects the DSP extension
record. Its concrete value is not given in the source tree; it is fixed here
as an arbitrary nonzero constant (first 32-bit word of the UUID). -/
def dspCodecFirst : Nat := 0xF86215B0

/-- Modelled from the spec: trailing 12 bytes of the DSP codec UUID (value
not given in the source tree; fixed arbitrarily). -/
def dspCodecRest : List Nat := [0x31, 0x44, 0x53, 0x50, 0, 0, 0, 0, 0, 0, 0, 0]

/-- A layer config selects the DSP extension exactly when its codec UUID
matches the DSP codec UUID. -/
def isDSPCodec (c : RWS_LayerConfig) : Bool :=
  c.codec_uuid_first == dspCodecFirst && c.codec_uuid_rest == dspCodecRest

/-- Modelled from the spec (ContainerHeaderParser): check the top-level
12-byte file header. BadMagic when the id is not the container magic;
SizeMismatch when file_size does not equal the remaining length (file_size
excludes the 12-byte fixed prefix). Returns the byte stream after the
header. -/
def checkFileHeader (buf : List Nat) : Except RWSError (List Nat) :=
  if buf.length < structBytes fileHeaderFields then .error .TruncatedStream
  else if readLE32 buf (fieldOffset fileHeaderFields "id") ≠ containerChunkId then
    .error .BadMagic
  else if readLE32 buf (fieldOffset fileHeaderFields "file_size")
      ≠ buf.length - structBytes fileHeaderFields then
    .error .SizeMismatch
  else .ok (buf.drop (structBytes fileHeaderFields))

/-- Modelled from the spec (ChunkWalker): scan the chunk stream for the next
chunk with a known id (audio header or data chunk), skipping unknown ids by
their declared payload size. Returns (id, version, payload, rest). The fuel
argument only bounds the recursion; callers pass length + 1, which always
suffices because each skipped chunk consumes at least 12 bytes. -/
def nextKnownChunk : Nat → List Nat → Except RWSError (Nat × Nat × List Nat × List Nat)
  | 0, _ => .error .TruncatedStream
  | fuel + 1, bytes =>
    if bytes.isEmpty then .error .UnexpectedChunk
    else if bytes.length < 12 then .error .TruncatedStream
    else
      let cid := readLE32 bytes (fieldOffset chunkHeaderFields "id")
      let sz := readLE32 bytes (fieldOffset chunkHeaderFields "size")
      let ver := readLE32 bytes (fieldOffset chunkHeaderFields "version")
      if bytes.length < 12 + sz then .error .TruncatedStream
      else if cid = audioHeaderChunkId ∨ cid = dataChunkId then
        .ok (cid, ver, (bytes.drop 12).take sz, bytes.drop (12 + sz))
      else nextKnownChunk fuel (bytes.drop (12 + sz))

/-- Parse a table of count fixed-size records laid out contiguously. -/
def parseRecords {α : Type} (p : List Nat → Option α) (recSize : Nat) :
    Nat → List Nat → Option (List α)
  | 0, _ => some []
  | n + 1, bytes =>
    match p bytes with
    | none => none
    | some r =>
      match parseRecords p recSize n (bytes.drop recSize) with
      | none => none
      | some rs => some (r :: rs)

/-- Modelled from the spec (LayerTableParser): read the trailing extension
region, one 92-byte DSPInfo per DSP-codec layer in layer order; non-DSP
layers contribute no bytes. Returns the per-layer optional extensions and
the number of bytes consumed. -/
def parseExtTable : List RWS_LayerConfig → List Nat →
    Option (List (Option RWS_DSPInfo) × Nat)
  | [], _ => some ([], 0)
  | c :: cs, bytes =>
    if isDSPCodec c then
      match parseDSPInfo bytes with
      | none => none
      | some d =>
        match parseExtTable cs (bytes.drop (structBytes dspInfoFields)) with
        | none => none
        | some (es, k) => some (some d :: es, structBytes dspInfoFields + k)
    else
      match parseExtTable cs bytes with
      | none => none
      | some (es, k) => some (none :: es, k)

/-- The parsed tables of the audio-header chunk. -/
structure AudioSection where
  hb : RWS_HeaderBase
  name : List Nat
  segs : List RWS_SegmentInfo
  geos : List RWS_LayerInfo
  cfgs : List RWS_LayerConfig
  exts : List (Option RWS_DSPInfo)
deriving DecidableEq

/-- Modelled from the spec (ContainerHeaderParser, SegmentTableParser,
LayerTableParser): parse the audio-header chunk payload: the 76-byte
preamble, the zero-terminated name padded out to header_size_actual, the
segment table, the layer geometry and layer config tables, and the DSP
extension region whose consumed size must equal block_layers_size. The three
declared section sizes must equal the actual sizes of the segment table, the
layer tables and (checked later) the data chunk. -/
def parseAudioPayload (payload : List Nat) : Except RWSError AudioSection :=
  match parseHeaderBase payload with
  | none => .error .TruncatedStream
  | some hb =>
    if hb.header_size_actual < structBytes headerBaseFields then .error .SizeMismatch
    else if payload.length < hb.header_size_actual then .error .TruncatedStream
    else
      let nameRegion := (payload.drop (structBytes headerBaseFields)).take
        (hb.header_size_actual - structBytes headerBaseFields)
      if nameRegion.all (fun b => b != 0) then .error .BadNameEncoding
      else if hb.section_size_1 ≠ structBytes segmentInfoFields * hb.total_segments then
        .error .SizeMismatch
      else if hb.section_size_2
          ≠ (structBytes layerInfoFields + structBytes layerConfigFields) * hb.total_layers then
        .error .SizeMismatch
      else if payload.length ≠ hb.header_size_actual + hb.section_size_1
          + hb.section_size_2 + hb.block_layers_size then
        .error .SizeMismatch
      else
        let t1 := payload.drop hb.header_size_actual
        match parseRecords parseSegmentInfo (structBytes segmentInfoFields)
            hb.total_segments t1 with
        | none => .error .TruncatedStream
        | some segs =>
          let t2 := t1.drop (structBytes segmentInfoFields * hb.total_segments)
          match parseRecords parseLayerInfo (structBytes layerInfoFields)
              hb.total_layers t2 with
          | none => .error .TruncatedStream
          | some geos =>
            let t3 := t2.drop (structBytes layerInfoFields * hb.total_layers)
            match parseRecords parseLayerConfig (structBytes layerConfigFields)
                hb.total_layers t3 with
            | none => .error .TruncatedStream
            | some cfgs =>
              let t4 := t3.drop (structBytes layerConfigFields * hb.total_layers)
              match parseExtTable cfgs t4 with
              | none => .error .TruncatedStream
              | some (exts, consumed) =>
                if consumed ≠ hb.block_layers_size then .error .SizeMismatch
                else .ok { hb := hb,
                           name := nameRegion.takeWhile (fun b => b != 0),
                           segs := segs, geos := geos, cfgs := cfgs, exts := exts }

/-- Everything parsed out of the chunk stream before geometry resolution. -/
structure ParsedFile where
  audio : AudioSection
  data : List Nat
deriving DecidableEq

/-- Modelled from the spec: the parsing phase of decode. Checks the file
header, finds the audio-header chunk (skipping unknown chunk ids), parses its
payload, then finds the data chunk, whose payload length must equal the third
declared section size. -/
def parsePhase (buf : List Nat) : Except RWSError ParsedFile :=
  match checkFileHeader buf with
  | .error e => .error e
  | .ok rest =>
    match nextKnownChunk (rest.length + 1) rest with
    | .error e => .error e
    | .ok (cid, _, payload, rest2) =>
      if cid ≠ audioHeaderChunkId then .error .UnexpectedChunk
      else
        match parseAudioPayload payload with
        | .error e => .error e
        | .ok audio =>
          match nextKnownChunk (rest2.length + 1) rest2 with
          | .error e => .error e
          | .ok (cid2, _, data, _) =>
            if cid2 ≠ dataChunkId then .error .UnexpectedChunk
            else if data.length ≠ audio.hb.section_size_3 then .error .SizeMismatch
            else .ok { audio := audio, data := data }

/-- One resolved segment of the geometry index: its declared layers_size and
data_offset, and the resolved (start, length) ranges of its layers, starts
relative to the segment. -/
structure SegmentOut where
  layersSize : Nat
  dataOffset : Nat
  ranges : List (Nat × Nat)
deriving DecidableEq

/-- The boundary at which the current layer range ends: the next layer record
start when it lies strictly ahead and inside the segment, otherwise the
segment end. -/
def nextBoundary (L pos : Nat) : List RWS_LayerInfo → Nat
  | [] => L
  | g2 :: _ => if pos < g2.layer_start ∧ g2.layer_start ≤ L then g2.layer_start else L

/-- Modelled from the spec (GeometryResolver): resolve the layer ranges of
one segment of size L starting at relative position pos. Each consumed layer
must start exactly at the current position (no gap, no overlap), its range
must be a whole number of padded blocks (length = block count ×
block_size_pad), and the run ends exactly at L. Returns the resolved ranges
and the layer records left for the following segments. -/
def resolveSegGo (L : Nat) : List RWS_LayerInfo → Nat →
    Option (List (Nat × Nat) × List RWS_LayerInfo)
  | [], pos => if pos = L then some ([], []) else none
  | g :: rest, pos =>
    if pos = L then some ([], g :: rest)
    else if g.layer_start = pos ∧ pos < nextBoundary L pos rest
        ∧ nextBoundary L pos rest ≤ L ∧ 0 < g.block_size_pad
        ∧ (nextBoundary L pos rest - pos) % g.block_size_pad = 0 then
      match resolveSegGo L rest (nextBoundary L pos rest) with
      | some (rs, rem) => some ((pos, nextBoundary L pos rest - pos) :: rs, rem)
      | none => none
    else none

/-- Modelled from the spec (GeometryResolver): assign each contiguous run of
layer records to its owning segment in order; every layer must be owned and
every segment layers_size exactly partitioned. -/
def resolveSegs : List RWS_SegmentInfo → List RWS_LayerInfo → Option (List SegmentOut)
  | [], [] => some []
  | [], _ :: _ => none
  | s :: ss, layers =>
    match resolveSegGo s.layers_size layers 0 with
    | none => none
    | some (rs, rem) =>
      match resolveSegs ss rem with
      | none => none
      | some outs =>
        some ({ layersSize := s.layers_size, dataOffset := s.data_offset,
                ranges := rs } :: outs)

/-- Every resolved absolute byte range lies within the data chunk. -/
def rangesInBounds (dataLen : Nat) (souts : List SegmentOut) : Bool :=
  souts.all fun s => s.ranges.all fun r =>
    decide (s.dataOffset + r.1 + r.2 ≤ dataLen)

/-- Modelled from the spec (GeometryResolver): resolve and bound-check the
whole geometry index; none means GeometryOverflow. -/
def resolvePhase (pre : ParsedFile) : Option (List SegmentOut) :=
  match resolveSegs pre.audio.segs pre.audio.geos with
  | none => none
  | some souts => if rangesInBounds pre.data.length souts then some souts else none

/-- One output layer: config metadata, optional DSP extension, and the
extracted byte buffer. -/
structure LayerOut where
  sample_rate : Nat
  channels : Nat
  bits_per_sample : Nat
  codec_first : Nat
  codec_rest : List Nat
  dsp : Option RWS_DSPInfo
  bytes : List Nat
deriving DecidableEq

/-- Keep the first bs bytes of each of n blocks of bsp bytes (padding
between blocks stripped). -/
def stripBlocks : Nat → Nat → Nat → List Nat → List Nat
  | 0, _, _, _ => []
  | n + 1, bs, bsp, bytes => bytes.take bs ++ stripBlocks n bs bsp (bytes.drop bsp)

/-- Modelled from the spec (DataExtractor): build the per-layer outputs by
pairing geometry, config and extension records with the flattened absolute
ranges of the resolved index, slicing the data chunk and stripping block
padding. -/
def buildLayers (data : List Nat) : List RWS_LayerInfo → List RWS_LayerConfig →
    List (Option RWS_DSPInfo) → List (Nat × Nat) → List LayerOut
  | g :: gs, c :: cs, e :: es, r :: rs =>
    { sample_rate := c.sample_rate, channels := c.channels,
      bits_per_sample := c.bits_per_sample, codec_first := c.codec_uuid_first,
      codec_rest := c.codec_uuid_rest, dsp := e,
      bytes := stripBlocks (r.2 / g.block_size_pad) g.block_size g.block_size_pad
        ((data.drop r.1).take r.2) } :: buildLayers data gs cs es rs
  | _, _, _, _ => []

/-- The decoded container: file UUID, display name, the raw data payload,
the resolved geometry index, and the ordered per-layer outputs. -/
structure DecodedContainer where
  uuid : List Nat
  name : List Nat
  data : List Nat
  segments : List SegmentOut
  layers : List LayerOut
deriving DecidableEq

/-- Flatten the resolved index into absolute (start, length) ranges in layer
order. -/
def absRanges (souts : List SegmentOut) : List (Nat × Nat) :=
  (souts.map fun s => s.ranges.map fun r => (s.dataOffset + r.1, r.2)).flatten

/-- Assemble the decode result from the parsed file and the resolved index. -/
def assemble (pre : ParsedFile) (souts : List SegmentOut) : DecodedContainer :=
  { uuid := pre.audio.hb.file_uuid, name := pre.audio.name, data := pre.data,
    segments := souts,
    layers := buildLayers pre.data pre.audio.geos pre.audio.cfgs pre.audio.exts
      (absRanges souts) }

/-- Modelled from the spec: the decoder entry point, a pure function of the
input buffer. Parsing, then geometry resolution (whose failure is
GeometryOverflow), then extraction. -/
def decode (buf : List Nat) : Except RWSError DecodedContainer :=
  match parsePhase buf with
  | .error e => .error e
  | .ok pre =>
    match resolvePhase pre with
    | none => .error .GeometryOverflow
    | some souts => .ok (assemble pre souts)

/-- The (start, length) ranges rs, in order, exactly tile the interval from
pos to L: each range starts where the previous one ended, lengths are
positive, and the last range ends at L. -/
def chainFrom : Nat → List (Nat × Nat) → Nat → Prop
  | pos, [], L => pos = L
  | pos, r :: rs, L => r.1 = pos ∧ 0 < r.2 ∧ chainFrom (pos + r.2) rs L

/-- The ranges rs exactly partition the interval from 0 to L, with no gap
and no overlap. -/
def exactPartition (L : Nat) (rs : List (Nat × Nat)) : Prop :=
  chainFrom 0 rs L

/-- Little-endian encoding of a 32-bit value, for building test buffers. -/
def le32 (v : Nat) : List Nat :=
  [v % 256, v / 256 % 256, v / 65536 % 256, v / 16777216 % 256]

/-- Little-endian encoding of a 16-bit value, for building test buffers. -/
def le16 (v : Nat) : List Nat := [v % 256, v / 256 % 256]

/-- A segment record for the sample file: six zero words, layers_size = 4,
data_offset = 0. -/
def wsegBytes : List Nat :=
  le32 0 ++ le32 0 ++ le32 0 ++ le32 0 ++ le32 0 ++ le32 0 ++ le32 4 ++ le32 0

/-- A layer geometry record for the sample file: one 4-byte block,
block_size = block_size_pad = interleave = 4, layer_start = 0. -/
def wgeoBytes : List Nat :=
  le32 0 ++ le32 0 ++ le32 0 ++ le32 0 ++ le32 4 ++ le32 0 ++ le16 4 ++ le16 0
    ++ le32 0 ++ le32 4 ++ le32 0

/-- A layer config record for the sample file: 32000 Hz, 16-bit, mono,
all-zero (non-DSP) codec UUID. -/
def wcfgBytes : List Nat :=
  le32 32000 ++ le32 0 ++ le32 4 ++ le16 16 ++ [1, 0] ++ le32 0 ++ le32 0
    ++ le32 0 ++ le32 0 ++ List.replicate 12 0

/-- Audio-header chunk payload of the sample file: 76-byte preamble
(header_size_actual = 80, section sizes 32 / 84 / 4, one segment, one layer,
empty extension region), UUID starting DE AD BE EF, 4-byte padded name,
then the three tables. -/
def wpayload : List Nat :=
  le32 80 ++ le32 32 ++ le32 84 ++ le32 4
    ++ le32 0 ++ le32 0 ++ le32 0
    ++ le32 1 ++ le32 0 ++ le32 1 ++ le32 0
    ++ le32 0 ++ le32 0 ++ le32 0 ++ le32 0
    ++ [0xDE, 0xAD, 0xBE, 0xEF] ++ List.replicate 12 0
    ++ [65, 0, 0, 0]
    ++ wsegBytes ++ wgeoBytes ++ wcfgBytes

/-- A complete well-formed sample RWS file: file header, audio-header chunk,
data chunk of 4 bytes. -/
def wfile : List Nat :=
  le32 containerChunkId ++ le32 224 ++ le32 0x1400
    ++ le32 audioHeaderChunkId ++ le32 196 ++ le32 0x1400 ++ wpayload
    ++ le32 dataChunkId ++ le32 4 ++ le32 0x1400 ++ [1, 2, 3, 4]

/-- The geometry index entry decode resolves for the sample file. -/
def wseg : SegmentOut := { layersSize := 4, dataOffset := 0, ranges := [(0, 4)] }

/-- The container decode produces for the sample file. -/
def wout : DecodedContainer :=
  { uuid := [0xDE, 0xAD, 0xBE, 0xEF, 0, 0, 0, 0, 0, 0, 0, 0, 0, 0, 0, 0],
    name := [65],
    data := [1, 2, 3, 4],
    segments := [wseg],
    layers := [{ sample_rate := 32000, channels := 1, bits_per_sample := 16,
                 codec_first := 0,
                 codec_rest := [0, 0, 0, 0, 0, 0, 0, 0, 0, 0, 0, 0],
                 dsp := none, bytes := [1, 2, 3, 4] }] }

/-- Modelled from the source field names: the preamble words named zero_1 and
zero_2 and the layer-geometry word named zero_08 are structurally required to
hold zero in a valid file. -/
def zeroFieldsHold (h : RWS_HeaderBase) (l : RWS_LayerInfo) : Prop :=
  h.zero_1 = 0 ∧ h.zero_2 = 0 ∧ l.zero_08 = 0

/-- A concrete 76-byte preamble whose required-zero words are zero and whose
UUID starts DE AD BE EF. -/
def cbytes : List Nat :=
  List.replicate 60 0 ++ [0xDE, 0xAD, 0xBE, 0xEF] ++ List.replicate 12 0

/-- The header parsed from cbytes. -/
def chdr : RWS_HeaderBase :=
  { header_size_actual := 0, section_size_1 := 0, section_size_2 := 0,
    section_size_3 := 0, config_1 := 0, config_2 := 0, zero_1 := 0,
    total_segments := 0, config_3 := 0, total_layers := 0, config_4 := 0,
    unknown_30 := 0, block_layers_size := 0, data_offset := 0, zero_2 := 0,
    file_uuid := [0xDE, 0xAD, 0xBE, 0xEF, 0, 0, 0, 0, 0, 0, 0, 0, 0, 0, 0, 0] }

/-- The layer geometry record parsed from wgeoBytes. -/
def wgeoRec : RWS_LayerInfo :=
  { unk_00 := 0, unk_04 := 0, zero_08 := 0, frame_hint := 0,
    block_size_pad := 4, unk_14 := 0, interleave := 4, frame_size := 0,
    unk_1C := 0, block_size := 4, layer_start := 0 }

/-- A concrete all-zero 92-byte DSP extension record buffer. -/
def wdspBytes : List Nat := List.replicate 92 0

/-- The DSP record parsed from wdspBytes. -/
def wdsp : RWS_DSPInfo :=
  { approx_samples := 0, unk_04 := 0, reserved := List.replicate 20 0,
    coefs := List.replicate 16 0, hist := List.replicate 16 0 }

example : wfile.length = 236 := by decide
example : decode wfile = Except.ok wout := by decide
example : parseHeaderBase cbytes = some chdr := by decide
example : parseLayerInfo wgeoBytes = some wgeoRec := by decide
example : parseDSPInfo wdspBytes = some wdsp := by decide

theorem readU8_lt (b : List Nat) (i : Nat) : readU8 b i < 256 :=
  Nat.mod_lt _ (by omega)

theorem readLE16_lt (b : List Nat) (i : Nat) : readLE16 b i < 65536 := by
  have h1 := readU8_lt b i
  have h2 := readU8_lt b (i + 1)
  unfold readLE16
  omega

theorem toSigned16_bounds (v : Nat) (hv : v < 65536) :
    -32768 ≤ toSigned16 v ∧ toSigned16 v < 32768 := by
  unfold toSigned16
  split
  · constructor
    · exact le_trans (by norm_num) (Int.ofNat_nonneg v)
    · exact_mod_cast ‹v < 32768›
  · have : 32768 ≤ v := by omega
    constructor
    · omega
    · omega

theorem chainFrom_le (rs : List (Nat × Nat)) :
    ∀ pos L, chainFrom pos rs L → pos ≤ L := by
  induction rs with
  | nil => intro pos L h; exact le_of_eq h
  | cons r rs ih =>
    intro pos L h
    obtain ⟨h1, h2, h3⟩ := h
    have := ih _ _ h3
    omega

theorem chainFrom_mem (rs : List (Nat × Nat)) :
    ∀ pos L r, chainFrom pos rs L → r ∈ rs → pos ≤ r.1 ∧ r.1 + r.2 ≤ L := by
  induction rs with
  | nil => intro pos L r _ hr; cases hr
  | cons a rs ih =>
    intro pos L r h hr
    obtain ⟨h1, h2, h3⟩ := h
    have hle := chainFrom_le rs _ _ h3
    cases hr with
    | head => omega
    | tail _ htl =>
      have := ih _ _ r h3 htl
      omega

theorem chainFrom_cover (rs : List (Nat × Nat)) :
    ∀ pos L b, chainFrom pos rs L → pos ≤ b → b < L →
      ∃! r : Nat × Nat, r ∈ rs ∧ r.1 ≤ b ∧ b < r.1 + r.2 := by
  induction rs with
  | nil =>
    intro pos L b h hb1 hb2
    simp only [chainFrom] at h
    omega
  | cons a rs ih =>
    intro pos L b h hb1 hb2
    obtain ⟨h1, h2, h3⟩ := h
    by_cases hcase : b < pos + a.2
    · refine ⟨a, ⟨List.mem_cons_self a rs, by omega, by omega⟩, ?_⟩
      rintro r' ⟨hm, hr1, hr2⟩
      cases hm with
      | head => rfl
      | tail _ htl =>
        have := chainFrom_mem rs _ _ r' h3 htl
        omega
    · push_neg at hcase
      obtain ⟨r, hr, hru⟩ := ih (pos + a.2) L b h3 hcase hb2
      refine ⟨r, ⟨List.mem_cons_of_mem a hr.1, hr.2.1, hr.2.2⟩, ?_⟩
      rintro r' ⟨hm, hr1, hr2⟩
      cases hm with
      | head => omega
      | tail _ htl => exact hru r' ⟨htl, hr1, hr2⟩

theorem resolveSegGo_chain (L : Nat) :
    ∀ (layers : List RWS_LayerInfo) (pos : Nat) (rs : List (Nat × Nat))
      (rem : List RWS_LayerInfo),
      resolveSegGo L layers pos = some (rs, rem) → chainFrom pos rs L := by
  intro layers
  induction layers with
  | nil =>
    intro pos rs rem h
    unfold resolveSegGo at h
    split at h
    · next hpos =>
      simp only [Option.some.injEq, Prod.mk.injEq] at h
      obtain ⟨rfl, rfl⟩ := h
      simpa [chainFrom] using hpos
    · simp at h
  | cons g rest ih =>
    intro pos rs rem h
    unfold resolveSegGo at h
    split at h
    · next hpos =>
      simp only [Option.some.injEq, Prod.mk.injEq] at h
      obtain ⟨rfl, rfl⟩ := h
      simpa [chainFrom] using hpos
    · split at h
      · next hcond =>
        obtain ⟨hst, hlt, hle, hbsp, hmod⟩ := hcond
        cases hrec : resolveSegGo L rest (nextBoundary L pos rest) with
        | none => rw [hrec] at h; simp at h
        | some pr =>
          obtain ⟨rs', rem'⟩ := pr
          rw [hrec] at h
          simp only [Option.some.injEq, Prod.mk.injEq] at h
          obtain ⟨rfl, rfl⟩ := h
          have hc := ih (nextBoundary L pos rest) rs' rem' hrec
          refine ⟨rfl, by omega, ?_⟩
          have heq : pos + (nextBoundary L pos rest - pos) = nextBoundary L pos rest := by
            omega
          rw [heq]
          exact hc
      · simp at h

theorem resolveSegs_chain :
    ∀ (segs : List RWS_SegmentInfo) (layers : List RWS_LayerInfo)
      (souts : List SegmentOut),
      resolveSegs segs layers = some souts →
      ∀ s ∈ souts, chainFrom 0 s.ranges s.layersSize := by
  intro segs
  induction segs with
  | nil =>
    intro layers souts h s hs
    cases layers with
    | nil =>
      simp only [resolveSegs, Option.some.injEq] at h
      subst h
      cases hs
    | cons a as => simp [resolveSegs] at h
  | cons sg sgs ih =>
    intro layers souts h s hs
    unfold resolveSegs at h
    cases hgo : resolveSegGo sg.layers_size layers 0 with
    | none => rw [hgo] at h; simp at h
    | some pr =>
      obtain ⟨rs, rem⟩ := pr
      rw [hgo] at h
      dsimp only at h
      cases hrec : resolveSegs sgs rem with
      | none => rw [hrec] at h; simp at h
      | some outs =>
        rw [hrec] at h
        simp only [Option.some.injEq] at h
        subst h
        cases hs with
        | head => exact resolveSegGo_chain sg.layers_size layers 0 rs rem hgo
        | tail _ htl => exact ih rem outs hrec s htl

theorem decode_ok_inv (buf : List Nat) (out : DecodedContainer)
    (h : decode buf = .ok out) :
    ∃ pre souts, parsePhase buf = .ok pre ∧ resolvePhase pre = some souts ∧
      out = assemble pre souts := by
  unfold decode at h
  cases hp : parsePhase buf with
  | error e => rw [hp] at h; simp at h
  | ok pre =>
    rw [hp] at h
    dsimp only at h
    cases hr : resolvePhase pre with
    | none => rw [hr] at h; simp at h
    | some souts =>
      rw [hr] at h
      dsimp only at h
      simp only [Except.ok.injEq] at h
      exact ⟨pre, souts, rfl, hr, h.symm⟩

theorem resolvePhase_some_inv (pre : ParsedFile) (souts : List SegmentOut)
    (h : resolvePhase pre = some souts) :
    resolveSegs pre.audio.segs pre.audio.geos = some souts ∧
      rangesInBounds pre.data.length souts = true := by
  unfold resolvePhase at h
  cases hrs : resolveSegs pre.audio.segs pre.audio.geos with
  | none => rw [hrs] at h; simp at h
  | some souts' =>
    rw [hrs] at h
    dsimp only at h
    split at h
    · next hb =>
      simp only [Option.some.injEq] at h
      subst h
      exact ⟨rfl, hb⟩
    · simp at h

theorem rangesInBounds_spec (dataLen : Nat) (souts : List SegmentOut)
    (h : rangesInBounds dataLen souts = true) :
    ∀ s ∈ souts, ∀ r ∈ s.ranges, s.dataOffset + r.1 + r.2 ≤ dataLen := by
  intro s hs r hr
  unfold rangesInBounds at h
  rw [List.all_eq_true] at h
  have hs2 := h s hs
  rw [List.all_eq_true] at hs2
  exact of_decide_eq_true (hs2 r hr)

theorem checkFileHeader_ok_size (buf rest : List Nat)
    (h : checkFileHeader buf = .ok rest) :
    readLE32 buf (fieldOffset fileHeaderFields "file_size")
      = buf.length - structBytes fileHeaderFields := by
  unfold checkFileHeader at h
  split at h
  · exact absurd h (by simp)
  · split at h
    · exact absurd h (by simp)
    · split at h
      · exact absurd h (by simp)
      · next h3 => omega

theorem parsePhase_ok_checkFile (buf : List Nat) (pre : ParsedFile)
    (h : parsePhase buf = .ok pre) :
    ∃ rest, checkFileHeader buf = .ok rest := by
  unfold parsePhase at h
  cases hc : checkFileHeader buf with
  | error e => rw [hc] at h; simp at h
  | ok rest => exact ⟨rest, rfl⟩

/-- Claim C1: the audio-header fixed preamble occupies exactly 76 bytes:
15 consecutive 4-byte fields followed by the 16-byte file UUID, comprising
the header size at offset 0, then the three declared section sizes, the two
config words, and then at strictly increasing offsets total_segments,
total_layers, block_layers_size and data_offset; the variable padded name
begins immediately after the UUID, at offset 76 (parseAudioPayload reads the
name from structBytes headerBaseFields on). -/
theorem audio_preamble_layout :
    structBytes headerBaseFields = 76 ∧
    headerBaseFields.length = 16 ∧
    ((headerBaseFields.take 15).all fun f => f.2 == 4) = true ∧
    headerBaseFields.getLast? = some ("file_uuid", 16) ∧
    fieldOffset headerBaseFields "header_size_actual" = 0 ∧
    fieldOffset headerBaseFields "section_size_1" = 4 ∧
    fieldOffset headerBaseFields "section_size_2" = 8 ∧
    fieldOffset headerBaseFields "section_size_3" = 12 ∧
    fieldOffset headerBaseFields "config_1" = 16 ∧
    fieldOffset headerBaseFields "config_2" = 20 ∧
    fieldOffset headerBaseFields "total_segments" = 28 ∧
    fieldOffset headerBaseFields "total_layers" = 36 ∧
    fieldOffset headerBaseFields "block_layers_size" = 48 ∧
    fieldOffset headerBaseFields "data_offset" = 52 ∧
    fieldOffset headerBaseFields "file_uuid" = 60 ∧
    fieldOffset headerBaseFields "file_uuid" + fieldWidth headerBaseFields "file_uuid"
      = structBytes headerBaseFields := by decide

/-- Claim C2: the DSP extension record occupies exactly 92 bytes: two 4-byte
fields with the approximate sample count first at offset 0, 20 reserved
bytes, then 16 signed 16-bit coefficients starting at byte offset 28,
followed by 16 signed 16-bit initial history values at offset 60. -/
theorem dsp_record_layout (p : List Nat) (d : RWS_DSPInfo) :
    (structBytes dspInfoFields = 92 ∧
     fieldOffset dspInfoFields "approx_samples" = 0 ∧
     fieldWidth dspInfoFields "approx_samples" = 4 ∧
     fieldWidth dspInfoFields "unk_04" = 4 ∧
     fieldOffset dspInfoFields "reserved" = 8 ∧
     fieldWidth dspInfoFields "reserved" = 20 ∧
     fieldOffset dspInfoFields "coefs" = 28 ∧
     fieldWidth dspInfoFields "coefs" = 16 * 2 ∧
     fieldOffset dspInfoFields "hist" = 60 ∧
     fieldWidth dspInfoFields "hist" = 16 * 2 ∧
     fieldOffset dspInfoFields "hist" + fieldWidth dspInfoFields "hist"
       = structBytes dspInfoFields) ∧
    (parseDSPInfo p = some d →
      d.coefs.length = 16 ∧ d.hist.length = 16 ∧
      (∀ x ∈ d.coefs, -32768 ≤ x ∧ x < 32768) ∧
      (∀ x ∈ d.hist, -32768 ≤ x ∧ x < 32768)) := by
  refine ⟨by decide, fun hp => ?_⟩
  unfold parseDSPInfo at hp
  split at hp
  · simp at hp
  · simp only [Option.some.injEq] at hp
    subst hp
    refine ⟨by simp, by simp, ?_, ?_⟩
    · intro x hx
      simp only [List.mem_map] at hx
      obtain ⟨k, _, rfl⟩ := hx
      exact toSigned16_bounds _ (readLE16_lt p _)
    · intro x hx
      simp only [List.mem_map] at hx
      obtain ⟨k, _, rfl⟩ := hx
      exact toSigned16_bounds _ (readLE16_lt p _)

/-- Claim C2 witness: the all-zero 92-byte buffer parses to a DSP record
with 16 coefficients and 16 history values. -/
theorem dsp_record_witness : wdsp.coefs.length = 16 ∧ wdsp.hist.length = 16 := by
  have h := (dsp_record_layout wdspBytes wdsp).2 (by decide)
  exact ⟨h.1, h.2.1⟩

/-- Claim C3: the layer geometry record occupies exactly 40 bytes of mixed
4-byte and 2-byte fields; interleave and frame_size are the only 2-byte
fields (so their parsed values are below 2^16); frame_hint, block_size_pad,
block_size and layer_start are 4-byte fields, and layer_start is the last
field of the record. -/
theorem layer_geometry_layout (p : List Nat) (l : RWS_LayerInfo) :
    (structBytes layerInfoFields = 40 ∧
     (layerInfoFields.all fun f => f.2 == 4 || f.2 == 2) = true ∧
     layerInfoFields.filter (fun f => f.2 == 2)
       = [("interleave", 2), ("frame_size", 2)] ∧
     fieldWidth layerInfoFields "frame_hint" = 4 ∧
     fieldWidth layerInfoFields "block_size_pad" = 4 ∧
     fieldWidth layerInfoFields "block_size" = 4 ∧
     fieldWidth layerInfoFields "layer_start" = 4 ∧
     layerInfoFields.getLast? = some ("layer_start", 4) ∧
     fieldOffset layerInfoFields "layer_start" + fieldWidth layerInfoFields "layer_start"
       = structBytes layerInfoFields) ∧
    (parseLayerInfo p = some l → l.interleave < 2 ^ 16 ∧ l.frame_size < 2 ^ 16) := by
  refine ⟨by decide, fun hp => ?_⟩
  unfold parseLayerInfo at hp
  split at hp
  · simp at hp
  · simp only [Option.some.injEq] at hp
    subst hp
    have hpow : (2 : Nat) ^ 16 = 65536 := by norm_num
    constructor
    · show readLE16 p (fieldOffset layerInfoFields "interleave") < 2 ^ 16
      rw [hpow]
      exact readLE16_lt p _
    · show readLE16 p (fieldOffset layerInfoFields "frame_size") < 2 ^ 16
      rw [hpow]
      exact readLE16_lt p _

/-- Claim C3 witness: the sample layer geometry record parses with interleave
and frame_size below 2^16. -/
theorem layer_geometry_witness :
    wgeoRec.interleave < 2 ^ 16 ∧ wgeoRec.frame_size < 2 ^ 16 :=
  (layer_geometry_layout wgeoBytes wgeoRec).2 (by decide)

/-- Claim C4: the layer config record occupies exactly 44 bytes, with
sample_rate and approx_size 4-byte, bits_per_sample 2-byte, channels 1-byte,
and the codec identity a 128-bit (16-byte) UUID split into a first 32-bit
word at offset 28 plus 12 trailing bytes at offset 32 that end the record. -/
theorem layer_config_layout :
    structBytes layerConfigFields = 44 ∧
    fieldWidth layerConfigFields "sample_rate" = 4 ∧
    fieldWidth layerConfigFields "approx_size" = 4 ∧
    fieldWidth layerConfigFields "bits_per_sample" = 2 ∧
    fieldWidth layerConfigFields "channels" = 1 ∧
    fieldWidth layerConfigFields "codec_uuid_first" = 4 ∧
    fieldWidth layerConfigFields "codec_uuid_rest" = 12 ∧
    fieldWidth layerConfigFields "codec_uuid_first"
      + fieldWidth layerConfigFields "codec_uuid_rest" = 16 ∧
    fieldOffset layerConfigFields "codec_uuid_first" = 28 ∧
    fieldOffset layerConfigFields "codec_uuid_rest" = 32 ∧
    fieldOffset layerConfigFields "codec_uuid_rest"
      + fieldWidth layerConfigFields "codec_uuid_rest"
      = structBytes layerConfigFields := by decide

/-- Claim C5: the segment record occupies exactly 32 bytes as 8 consecutive
4-byte fields, the last two being layers_size and data_offset, the preceding
six unidentified. -/
theorem segment_record_layout :
    structBytes segmentInfoFields = 32 ∧
    segmentInfoFields.length = 8 ∧
    (segmentInfoFields.all fun f => f.2 == 4) = true ∧
    segmentInfoFields.drop 6 = [("layers_size", 4), ("data_offset", 4)] ∧
    (segmentInfoFields.take 6).map Prod.fst
      = ["unk_00", "unk_04", "unk_08", "unk_0C", "unk_10", "unk_14"] := by decide

/-- Claim C6: the file header and every chunk header occupy exactly 12 bytes
as three 4-byte fields in the order (id, size, version), and for every buffer
decode accepts, the declared file_size equals the byte length of the file
minus the 12-byte fixed file-header prefix. -/
theorem file_and_chunk_header_layout (buf : List Nat) (out : DecodedContainer) :
    (structBytes fileHeaderFields = 12 ∧
     fileHeaderFields.map Prod.fst = ["id", "file_size", "version"] ∧
     (fileHeaderFields.all fun f => f.2 == 4) = true ∧
     structBytes chunkHeaderFields = 12 ∧
     chunkHeaderFields.map Prod.fst = ["id", "size", "version"] ∧
     (chunkHeaderFields.all fun f => f.2 == 4) = true) ∧
    (decode buf = Except.ok out →
      readLE32 buf (fieldOffset fileHeaderFields "file_size")
        = buf.length - structBytes fileHeaderFields) := by
  refine ⟨by decide, fun h => ?_⟩
  obtain ⟨pre, souts, hp, _, _⟩ := decode_ok_inv buf out h
  obtain ⟨rest, hc⟩ := parsePhase_ok_checkFile buf pre hp
  exact checkFileHeader_ok_size buf rest hc

/-- Claim C6 witness: the sample file decodes, and its declared file_size is
its length minus 12. -/
theorem file_header_witness :
    readLE32 wfile (fieldOffset fileHeaderFields "file_size")
      = wfile.length - structBytes fileHeaderFields :=
  (file_and_chunk_header_layout wfile wout).2 (by decide)

/-- Claim C7: for every input decode accepts, each resolved segment of the
geometry index has layer ranges that exactly partition the interval from 0
to its layers_size (every byte of the segment is covered by exactly one
range, no gap, no overlap), and every resolved absolute byte range
(data_offset + start, of the resolved length, a whole number of padded
blocks) lies within the data chunk; and when parsing succeeds but geometry
resolution fails, decode fails with GeometryOverflow. -/
theorem geometry_partition_and_bounds (buf : List Nat) :
    (∀ out, decode buf = Except.ok out → ∀ s ∈ out.segments,
       exactPartition s.layersSize s.ranges ∧
       (∀ b, b < s.layersSize →
          ∃! r : Nat × Nat, r ∈ s.ranges ∧ r.1 ≤ b ∧ b < r.1 + r.2) ∧
       (∀ r ∈ s.ranges, s.dataOffset + r.1 + r.2 ≤ out.data.length)) ∧
    (∀ pre, parsePhase buf = Except.ok pre → resolvePhase pre = none →
       decode buf = Except.error RWSError.GeometryOverflow) := by
  constructor
  · intro out hout s hs
    obtain ⟨pre, souts, hp, hr, rfl⟩ := decode_ok_inv buf out hout
    obtain ⟨hrs, hbounds⟩ := resolvePhase_some_inv pre souts hr
    have hs' : s ∈ souts := hs
    have hchain := resolveSegs_chain pre.audio.segs pre.audio.geos souts hrs s hs'
    refine ⟨hchain, ?_, ?_⟩
    · intro b hb
      exact chainFrom_cover s.ranges 0 s.layersSize b hchain (Nat.zero_le b) hb
    · intro r hrr
      exact rangesInBounds_spec pre.data.length souts hbounds s hs' r hrr
  · intro pre hp hr
    simp [decode, hp, hr]

/-- Claim C7 witness: the sample file decodes; its one segment has the single
range (0, 4) exactly partitioning layers_size = 4, within the 4-byte data
chunk. -/
theorem geometry_witness :
    exactPartition wseg.layersSize wseg.ranges ∧
      wseg.dataOffset + 0 + 4 ≤ wout.data.length := by
  have h := (geometry_partition_and_bounds wfile).1 wout (by decide) wseg (by decide)
  exact ⟨h.1, h.2.2 (0, 4) (by decide)⟩

/-- Claim C8: decode is a pure, deterministic function of its input buffer:
two invocations on the same buffer yield identical results. -/
theorem decode_deterministic (b1 b2 : List Nat) (h : b1 = b2) :
    decode b1 = decode b2 := by rw [h]

/-- Claim C8 witness: decoding the sample file twice yields identical
results. -/
theorem decode_deterministic_witness : decode wfile = decode wfile :=
  decode_deterministic wfile wfile rfl

/-- Claim C9: the three known chunk identifiers are the consecutive 32-bit
values 0x0000080D (container), 0x0000080E (audio header) and 0x0000080F
(data), and decode rejects a buffer whose first word is not the container
magic with BadMagic. -/
theorem chunk_ids_consecutive (buf : List Nat) :
    (containerChunkId = 0x0000080D ∧
     audioHeaderChunkId = 0x0000080E ∧
     dataChunkId = 0x0000080F ∧
     audioHeaderChunkId = containerChunkId + 1 ∧
     dataChunkId = audioHeaderChunkId + 1) ∧
    (¬ buf.length < 12 →
      readLE32 buf (fieldOffset fileHeaderFields "id") ≠ containerChunkId →
      decode buf = Except.error RWSError.BadMagic) := by
  refine ⟨by decide, fun h1 h2 => ?_⟩
  have hsz : structBytes fileHeaderFields = 12 := by decide
  have hc : checkFileHeader buf = .error .BadMagic := by
    unfold checkFileHeader
    rw [hsz, if_neg h1, if_pos h2]
  simp [decode, parsePhase, hc]

/-- Claim C9 witness: a 12-byte zero buffer is rejected with BadMagic. -/
theorem chunk_ids_witness :
    decode (List.replicate 12 0) = Except.error RWSError.BadMagic :=
  (chunk_ids_consecutive (List.replicate 12 0)).2 (by decide) (by decide)

/-- Claim C10 counterexample: zero_2 is the word at offset 0x38 of the
preamble, not 0x3C as claimed; in the concrete preamble cbytes the parsed
zero_2 is 0 while the 4-byte word at offset 0x3C is the first UUID word
0xEFBEADDE, which is not zero. -/
theorem zero_word_offset_cex :
    fieldOffset headerBaseFields "zero_2" = 0x38 ∧
    (0x38 : Nat) ≠ 0x3C ∧
    parseHeaderBase cbytes = some chdr ∧
    chdr.zero_2 = 0 ∧
    readLE32 cbytes 0x3C = 0xEFBEADDE := by decide

/-- Claim C10 as amended: the three required-zero fields sit at byte offset
0x18 (zero_1) and 0x38 (zero_2) of the audio-header preamble and 0x08
(zero_08) of the layer geometry record; parsing reads them from exactly
those offsets, and in a record pair satisfying the required-zero validity
the little-endian words at those offsets are zero. -/
theorem zero_fields_layout (p q : List Nat) (h : RWS_HeaderBase)
    (l : RWS_LayerInfo) :
    (fieldOffset headerBaseFields "zero_1" = 0x18 ∧
     fieldOffset headerBaseFields "zero_2" = 0x38 ∧
     fieldOffset layerInfoFields "zero_08" = 0x08) ∧
    (parseHeaderBase p = some h →
      h.zero_1 = readLE32 p 0x18 ∧ h.zero_2 = readLE32 p 0x38) ∧
    (parseLayerInfo q = some l → l.zero_08 = readLE32 q 0x08) ∧
    (parseHeaderBase p = some h → parseLayerInfo q = some l →
      zeroFieldsHold h l →
      readLE32 p 0x18 = 0 ∧ readLE32 p 0x38 = 0 ∧ readLE32 q 0x08 = 0) := by
  have ho1 : fieldOffset headerBaseFields "zero_1" = 0x18 := by decide
  have ho2 : fieldOffset headerBaseFields "zero_2" = 0x38 := by decide
  have ho3 : fieldOffset layerInfoFields "zero_08" = 0x08 := by decide
  have hhb : parseHeaderBase p = some h →
      h.zero_1 = readLE32 p 0x18 ∧ h.zero_2 = readLE32 p 0x38 := by
    intro hp
    unfold parseHeaderBase at hp
    split at hp
    · simp at hp
    · simp only [Option.some.injEq] at hp
      subst hp
      exact ⟨by rw [← ho1], by rw [← ho2]⟩
  have hli : parseLayerInfo q = some l → l.zero_08 = readLE32 q 0x08 := by
    intro hq
    unfold parseLayerInfo at hq
    split at hq
    · simp at hq
    · simp only [Option.some.injEq] at hq
      subst hq
      exact by rw [← ho3]
  refine ⟨⟨ho1, ho2, ho3⟩, hhb, hli, fun hp hq hz => ?_⟩
  obtain ⟨hz1, hz2, hz3⟩ := hz
  obtain ⟨e1, e2⟩ := hhb hp
  have e3 := hli hq
  exact ⟨by rw [← e1, hz1], by rw [← e2, hz2], by rw [← e3, hz3]⟩

/-- Claim C10 amended witness: concrete preamble and geometry records whose
required-zero fields are zero have zero words at offsets 0x18, 0x38 and
0x08. -/
theorem zero_fields_witness :
    readLE32 cbytes 0x18 = 0 ∧ readLE32 cbytes 0x38 = 0
      ∧ readLE32 wgeoBytes 0x08 = 0 :=
  (zero_fields_layout cbytes wgeoBytes chdr wgeoRec).2.2.2 (by decide) (by decide)
    ⟨rfl, rfl, rfl⟩
